import Mathlib

/-!
Verification development for `app_bridgemon.c` (the BridgeMon Asterisk
module).  The C code is shallowly embedded: channels, bridge channels and
the module's session record / datastore become Lean structures; the hook
callback, the stop routine, the datastore destructor and the start routine
become pure functions that, where the C code takes locks or writes channel
variables, additionally emit an explicit event trace (`Ev`).  Machine
integers only appear as C `int` return codes (0 / -1), modelled as `Int`.
-/

namespace Bridgemon

/-- An Asterisk channel, as far as this module observes it: its unique id
(`ast_channel_uniqueid`) and its name (`ast_channel_name`). -/
structure Channel where
  uid : String
  name : String
deriving DecidableEq, Repr

/-- The result of `ast_bridge_channel_peer`: the other bridge channel in the
bridge, whose `chan` field (also `ast_bridge_channel_get_chan`) may be NULL. -/
structure PeerBridgeChannel where
  chan : Option Channel
deriving DecidableEq, Repr

/-- The `ast_bridge_channel` handed to the join hook: the channel that just
joined (`bridge_channel->chan`) together with the result that
`ast_bridge_channel_peer(bridge_channel)` would return at that moment
(`none` when the joining channel is alone in the bridge). -/
structure BridgeChannel where
  chan : Channel
  peer : Option PeerBridgeChannel
deriving DecidableEq, Repr

/-- `struct bridgemon_data`: the session record.  The C struct also holds a
`features` object and a mutex; the mutex is represented by the lock id
`LockId.dataL` in traces (the code never actually takes it). -/
structure bridgemon_data where
  monitored_channel : Option Channel
  channel_id : String
  active : Bool
deriving DecidableEq, Repr

/-- `struct bridgemon_ds`: the datastore payload guarding destruction. -/
structure bridgemon_ds where
  data_ref : Option bridgemon_data
  destruction_ok : Bool
deriving DecidableEq, Repr

/-- The three locks the module touches: the monitored channel's lock, the
datastore's (`bridgemon_ds->lock`) and the record's own
(`bridgemon_data->lock`). -/
inductive LockId where
  | chanL : LockId
  | dsL : LockId
  | dataL : LockId
deriving DecidableEq, Repr

/-- Primitive events emitted by the embedded routines, in source order:
lock operations, reads/writes of the record's `active` flag, channel
variable writes (`pbx_builtin_setvar_helper`), and the datastore
destructor's actions. -/
inductive Ev where
  | acquire (l : LockId) : Ev
  | release (l : LockId) : Ev
  | readActive : Ev
  | writeActive (b : Bool) : Ev
  | setvar (key val : String) : Ev
  | clearDSRef : Ev
  | setDestructionOk : Ev
  | signalCond : Ev
  | findDatastore : Ev
  | removeDatastore : Ev
deriving DecidableEq, Repr

/-- `ast_copy_string(dst, src, size)`: copies at most `size - 1` characters
of `src` into the fixed buffer and NUL-terminates it. -/
def ast_copy_string (size : Nat) (src : String) : String :=
  ⟨src.data.take (size - 1)⟩

/-- `bridgemon_hook_callback` (src/app_bridgemon.c lines 125-224), embedded
as a pure function from the hook's `data` pointer (the session record, NULL
modelled as `none`) and the joining `bridge_channel` to the event trace it
performs and its C return value.  Branch structure follows the source:
an entry guard on a NULL or inactive record, a guard on a NULL monitored
channel, then Case A (`bridge_channel->chan == monitored_channel`) or
Case B (any other channel joining). -/
def bridgemon_hook_callback (data : Option bridgemon_data)
    (bridge_channel : BridgeChannel) : List Ev × Int :=
  match data with
  | none => ([], 0)
  | some d =>
    if !d.active then
      ([Ev.readActive], 0)
    else
      match d.monitored_channel with
      | none => ([Ev.readActive], 0)
      | some monitored_channel =>
        if bridge_channel.chan = monitored_channel then
          let base : List Ev :=
            [Ev.readActive, Ev.acquire LockId.chanL,
             Ev.setvar "BRIDGEMON_HOOK_TRIGGERED" "1",
             Ev.release LockId.chanL]
          match bridge_channel.peer with
          | none => (base, 0)
          | some peer_bridge_channel =>
            match peer_bridge_channel.chan with
            | none => (base, 0)
            | some peer_channel =>
              let peer_id := ast_copy_string 64 peer_channel.uid
              (base ++
               [Ev.acquire LockId.chanL,
                Ev.setvar "BRIDGEPEERID" peer_id,
                Ev.setvar "BRIDGEMON_PEER_FOUND" "1",
                Ev.setvar "BRIDGEMON_PEER_NAME" peer_channel.name,
                Ev.setvar "BRIDGEMON_CHANNEL_ID" peer_id,
                Ev.release LockId.chanL], 0)
        else
          match bridge_channel.peer with
          | none => ([Ev.readActive], 0)
          | some monitored_bridge_channel =>
            if monitored_bridge_channel.chan = some monitored_channel then
              let peer_id := ast_copy_string 64 bridge_channel.chan.uid
              ([Ev.readActive, Ev.acquire LockId.chanL,
                Ev.setvar "BRIDGEPEERID" peer_id,
                Ev.setvar "BRIDGEMON_PEER_FOUND" "1",
                Ev.setvar "BRIDGEMON_PEER_NAME" bridge_channel.chan.name,
                Ev.setvar "BRIDGEMON_CHANNEL_ID" peer_id,
                Ev.release LockId.chanL], 0)
            else
              ([Ev.readActive], 0)

/-- The channel-variable writes contained in a trace, in order. -/
def writesOf (tr : List Ev) : List (String × String) :=
  tr.filterMap fun e =>
    match e with
    | Ev.setvar k v => some (k, v)
    | _ => none

/-- The values written to the peer-id key `BRIDGEPEERID` in a trace. -/
def peerIdWrites (tr : List Ev) : List String :=
  tr.filterMap fun e =>
    match e with
    | Ev.setvar k v => if k = "BRIDGEPEERID" then some v else none
    | _ => none

/-- The fixed event trace of `bridgemon_ds_destroy` (lines 108-117):
everything happens between taking and dropping `bridgemon_ds->lock`. -/
def ds_destroy_trace : List Ev :=
  [Ev.acquire LockId.dsL, Ev.clearDSRef, Ev.setDestructionOk,
   Ev.signalCond, Ev.release LockId.dsL]

/-- `bridgemon_ds_destroy` (lines 108-117): under the datastore lock, clear
the record reference, set `destruction_ok`, signal the destruction
condition, then unlock. -/
def bridgemon_ds_destroy (ds : bridgemon_ds) : bridgemon_ds × List Ev :=
  ({ ds with data_ref := none, destruction_ok := true }, ds_destroy_trace)

/-- The state of one monitoring session on one channel, as the module's
routines can observe and mutate it:
* `attached`: the datastore is currently attached to (and findable on) the
  monitored channel under the session's id;
* `dsRef`: `bridgemon_ds->bridgemon_data` is non-NULL (it aliases `record`);
* `record`: the `bridgemon_data` object, `none` when not allocated or freed
  (the join hook's `data` pointer refers to this object once registered);
* `destruction_ok`: the datastore destructor has run. -/
structure SysState where
  attached : Bool
  dsRef : Bool
  record : Option bridgemon_data
  destruction_ok : Bool
deriving DecidableEq, Repr

/-- The state before any session exists. -/
def initState : SysState :=
  { attached := false, dsRef := false, record := none, destruction_ok := false }

/-- `stop_bridgemon` (lines 337-369): look up the datastore under the
channel lock; if absent, warn and return -1 with no state change.
Otherwise, under the datastore lock, clear the record's `active` flag if
the datastore still references a record; then, under the channel lock,
remove the datastore, whose free runs `bridgemon_ds_destroy`.  Returns the
new state, the C return value, and the event trace. -/
def stop_bridgemon (s : SysState) : SysState × Int × List Ev :=
  let lookup : List Ev := [Ev.acquire LockId.chanL, Ev.findDatastore,
                           Ev.release LockId.chanL]
  if !s.attached then
    (s, -1, lookup)
  else
    let deact : List Ev :=
      if s.dsRef then [Ev.acquire LockId.dsL, Ev.writeActive false,
                       Ev.release LockId.dsL]
      else [Ev.acquire LockId.dsL, Ev.release LockId.dsL]
    let record1 : Option bridgemon_data :=
      if s.dsRef then s.record.map (fun r => { r with active := false })
      else s.record
    ({ attached := false, dsRef := false, record := record1,
       destruction_ok := true },
     0,
     lookup ++ deact ++
       ([Ev.acquire LockId.chanL, Ev.removeDatastore] ++ ds_destroy_trace ++
        [Ev.release LockId.chanL]))

/-- Failure oracle for `start_bridgemon`: which of its fallible steps
succeed (`ast_calloc` of the record, `ast_bridge_features_init`, the
`ast_calloc`/`ast_asprintf`/`ast_datastore_alloc` inside
`setup_bridgemon_ds`, and `ast_bridge_join_hook`). -/
structure StartEnv where
  data_alloc_ok : Bool
  features_init_ok : Bool
  ds_alloc_ok : Bool
  id_alloc_ok : Bool
  datastore_alloc_ok : Bool
  hook_ok : Bool
deriving DecidableEq, Repr

/-- `setup_bridgemon_ds` (lines 238-271): allocate the `bridgemon_ds`,
format the datastore id, allocate the datastore; on any failure free what
was allocated and return -1 leaving the state untouched; on success point
the datastore at the record and attach it to the channel. -/
def setup_bridgemon_ds (env : StartEnv) (d : bridgemon_data) (s : SysState) :
    SysState × Int :=
  if !env.ds_alloc_ok then (s, -1)
  else if !env.id_alloc_ok then (s, -1)
  else if !env.datastore_alloc_ok then (s, -1)
  else ({ s with attached := true, dsRef := true, record := some d }, 0)

/-- `start_bridgemon` (lines 274-334): allocate the record (`active = 1`,
`monitored_channel = chan`), initialize the bridge features, set up and
attach the datastore, then register the join hook.  Each failure path frees
the record (`bridgemon_data_free`) and returns -1 — but the hook-failure
path does NOT detach the datastore that `setup_bridgemon_ds` already
attached, which the resulting state records as
`attached = true, record = none`. -/
def start_bridgemon (env : StartEnv) (chan : Channel) (channel_id : String) :
    SysState × Int :=
  if !env.data_alloc_ok then (initState, -1)
  else
    let d : bridgemon_data :=
      { monitored_channel := some chan, channel_id := channel_id,
        active := true }
    if !env.features_init_ok then (initState, -1)
    else
      let setup := setup_bridgemon_ds env d initState
      if setup.2 ≠ 0 then (initState, -1)
      else if !env.hook_ok then ({ setup.1 with record := none }, -1)
      else (setup.1, 0)

/-- States reachable by the session lifecycle: from the empty state, a
successful `start_bridgemon` (only callable when no session is attached),
or any `stop_bridgemon`.  The hook callback never mutates this state. -/
inductive Reachable : SysState → Prop where
  | init : Reachable initState
  | start (env : StartEnv) (chan : Channel) (channel_id : String)
      (s : SysState) (hs : Reachable s) (hfree : s.attached = false)
      (hok : (start_bridgemon env chan channel_id).2 = 0) :
      Reachable (start_bridgemon env chan channel_id).1
  | stop (s : SysState) (hs : Reachable s) : Reachable (stop_bridgemon s).1

/-- How many times each lock is currently held while walking a trace. -/
structure Held where
  chanL : Nat
  dsL : Nat
  dataL : Nat
deriving DecidableEq, Repr

/-- No lock held. -/
def held0 : Held := { chanL := 0, dsL := 0, dataL := 0 }

/-- Effect of one event on the held-lock counters. -/
def heldAfter (h : Held) (e : Ev) : Held :=
  match e with
  | Ev.acquire LockId.chanL => { h with chanL := h.chanL + 1 }
  | Ev.acquire LockId.dsL => { h with dsL := h.dsL + 1 }
  | Ev.acquire LockId.dataL => { h with dataL := h.dataL + 1 }
  | Ev.release LockId.chanL => { h with chanL := h.chanL - 1 }
  | Ev.release LockId.dsL => { h with dsL := h.dsL - 1 }
  | Ev.release LockId.dataL => { h with dataL := h.dataL - 1 }
  | _ => h

/-- The held-lock counters at each access (read or write) of the record's
`active` flag in a trace, in order. -/
def activeAccessHolds (h : Held) : List Ev → List Held
  | [] => []
  | e :: rest =>
    match e with
    | Ev.readActive => h :: activeAccessHolds h rest
    | Ev.writeActive _ => h :: activeAccessHolds h rest
    | _ => activeAccessHolds (heldAfter h e) rest

/-- Whether at least one of the three locks is held. -/
def someLockHeld (h : Held) : Bool :=
  decide (0 < h.chanL) || decide (0 < h.dsL) || decide (0 < h.dataL)

/-- Whether the datastore's lock is held. -/
def dsLockHeld (h : Held) : Bool :=
  decide (0 < h.dsL)

/-! Helper lemmas shared by the claim theorems. -/

/-- With an inactive record the callback does nothing but read the flag. -/
theorem callback_not_active (d : bridgemon_data) (bc : BridgeChannel)
    (h : d.active = false) :
    bridgemon_hook_callback (some d) bc = ([Ev.readActive], 0) := by
  simp [bridgemon_hook_callback, h]

/-- Copying into a large enough buffer leaves the string unchanged. -/
theorem ast_copy_string_of_le (size : Nat) (s : String)
    (h : s.length ≤ size - 1) : ast_copy_string size s = s := by
  cases s with
  | mk data =>
    unfold ast_copy_string
    congr 1
    exact List.take_of_length_le h

/-- `stop_bridgemon` always leaves the session detached. -/
theorem stop_result_detached (s : SysState) :
    (stop_bridgemon s).1.attached = false := by
  cases hs : s.attached <;> simp [stop_bridgemon, hs]

/-- `start_bridgemon` succeeds only into the fully linked state. -/
theorem start_ok_state (env : StartEnv) (chan : Channel) (channel_id : String)
    (hok : (start_bridgemon env chan channel_id).2 = 0) :
    (start_bridgemon env chan channel_id).1 =
      { attached := true, dsRef := true,
        record := some { monitored_channel := some chan,
                         channel_id := channel_id, active := true },
        destruction_ok := false } := by
  obtain ⟨a, b, c, d, e, f⟩ := env
  cases a <;> cases b <;> cases c <;> cases d <;> cases e <;> cases f <;>
    simp [start_bridgemon, setup_bridgemon_ds, initState] at hok ⊢

/-- In every reachable state, an attached datastore still references the
session record. -/
theorem reachable_attached_dsRef {s : SysState} (h : Reachable s) :
    s.attached = true → s.dsRef = true := by
  induction h with
  | init => intro hc; exact absurd hc (by simp [initState])
  | start env chan channel_id s hs hfree hok ih =>
    intro _
    rw [start_ok_state env chan channel_id hok]
  | stop s hs ih =>
    intro hc
    exact absurd hc (by simp [stop_result_detached])

/-! Claim theorems. -/

/-- C9: for every invocation of the join callback — including with an
absent (NULL) session record, an inactive record, or a NULL monitored
channel — `bridgemon_hook_callback` returns success (0), so it never
propagates an error into the bridge's event delivery. -/
theorem hook_callback_always_returns_zero (data : Option bridgemon_data)
    (bc : BridgeChannel) : (bridgemon_hook_callback data bc).2 = 0 := by
  unfold bridgemon_hook_callback
  repeat' split
  all_goals rfl

/-- C8: `bridgemon_ds_destroy`, whenever invoked, acquires the datastore's
lock, clears its session-record reference, sets `destruction_ok` to true
and signals the destruction condition variable before releasing the lock —
the returned trace lists exactly these five events in source order, and the
resulting datastore state has a null record reference and
`destruction_ok = true`. -/
theorem ds_destroy_contract (ds : bridgemon_ds) :
    bridgemon_ds_destroy ds =
      ({ data_ref := none, destruction_ok := true },
       [Ev.acquire LockId.dsL, Ev.clearDSRef, Ev.setDestructionOk,
        Ev.signalCond, Ev.release LockId.dsL]) := rfl

/-- C6: calling `stop_bridgemon` when no datastore for the session is
attached to the channel — in particular a second stop right after a
successful stop — returns -1 (surfaced as `NotFoundError`) and changes no
state. -/
theorem stop_missing_session_not_found (s : SysState)
    (h : s.attached = false) :
    ((stop_bridgemon s).1 = s ∧ (stop_bridgemon s).2.1 = -1) ∧
    ∀ t : SysState,
      (stop_bridgemon (stop_bridgemon t).1).1 = (stop_bridgemon t).1 ∧
      (stop_bridgemon (stop_bridgemon t).1).2.1 = -1 := by
  have main : ∀ u : SysState, u.attached = false →
      stop_bridgemon u = (u, -1, [Ev.acquire LockId.chanL, Ev.findDatastore,
        Ev.release LockId.chanL]) := by
    intro u hu
    simp [stop_bridgemon, hu]
  refine ⟨⟨?_, ?_⟩, ?_⟩
  · rw [main s h]
  · rw [main s h]
  · intro t
    rw [main (stop_bridgemon t).1 (stop_result_detached t)]
    exact ⟨rfl, rfl⟩

/-- Witness for C6: stopping twice from a freshly started session — the
second stop returns -1 and leaves the post-stop state untouched. -/
theorem stop_missing_session_not_found_witness :
    ((stop_bridgemon (stop_bridgemon
        (start_bridgemon ⟨true, true, true, true, true, true⟩
          ⟨"A1", "PJSIP/a"⟩ "s1").1).1).1 =
      (stop_bridgemon (start_bridgemon ⟨true, true, true, true, true, true⟩
          ⟨"A1", "PJSIP/a"⟩ "s1").1).1 ∧
     (stop_bridgemon (stop_bridgemon
        (start_bridgemon ⟨true, true, true, true, true, true⟩
          ⟨"A1", "PJSIP/a"⟩ "s1").1).1).2.1 = -1) :=
  (stop_missing_session_not_found initState rfl).2
    (start_bridgemon ⟨true, true, true, true, true, true⟩
      ⟨"A1", "PJSIP/a"⟩ "s1").1

/-- C5 (failing input): with every allocation succeeding but
`ast_bridge_join_hook` failing, `start_bridgemon` returns -1 and frees the
session record, yet the datastore it attached in `setup_bridgemon_ds`
remains attached to the channel, still holding its (now dangling) record
reference — no full unwind, contradicting the documented contract.  By
contrast, a failure one step earlier (datastore allocation) leaves nothing
attached. -/
theorem start_hook_failure_leaves_datastore_attached :
    (start_bridgemon ⟨true, true, true, true, true, false⟩
        ⟨"A1", "PJSIP/a"⟩ "s1").2 = -1 ∧
    (start_bridgemon ⟨true, true, true, true, true, false⟩
        ⟨"A1", "PJSIP/a"⟩ "s1").1.attached = true ∧
    (start_bridgemon ⟨true, true, true, true, true, false⟩
        ⟨"A1", "PJSIP/a"⟩ "s1").1.dsRef = true ∧
    (start_bridgemon ⟨true, true, true, true, true, false⟩
        ⟨"A1", "PJSIP/a"⟩ "s1").1.record = none ∧
    (start_bridgemon ⟨true, true, true, true, false, true⟩
        ⟨"A1", "PJSIP/a"⟩ "s1").1.attached = false := by
  decide

/-- C1: for a two-party bridge formed by the monitored channel `A` (with an
active session record) and another channel `B`, the two join notifications
— in either order — produce exactly one `BRIDGEPEERID` write, of `B`'s
unique id, and it happens on whichever notification observes both
participants present (the second one), never on both and never on neither.
The first two conjuncts are the order A-then-B (A joins an empty bridge,
then B joins seeing A as peer), the last two the order B-then-A. -/
theorem hook_two_party_exactly_one_write
    (A B : Channel) (d : bridgemon_data)
    (hAB : B ≠ A) (hlen : B.uid.length ≤ 63)
    (hmon : d.monitored_channel = some A) (hact : d.active = true) :
    peerIdWrites (bridgemon_hook_callback (some d) ⟨A, none⟩).1 = [] ∧
    peerIdWrites (bridgemon_hook_callback (some d)
      ⟨B, some ⟨some A⟩⟩).1 = [B.uid] ∧
    peerIdWrites (bridgemon_hook_callback (some d) ⟨B, none⟩).1 = [] ∧
    peerIdWrites (bridgemon_hook_callback (some d)
      ⟨A, some ⟨some B⟩⟩).1 = [B.uid] := by
  refine ⟨?_, ?_, ?_, ?_⟩ <;>
    simp [bridgemon_hook_callback, peerIdWrites, hmon, hact, hAB,
      ast_copy_string_of_le 64 B.uid hlen]

/-- Witness for C1 at concrete channels: in the order A-then-B, the first
notification writes nothing and the second writes B's id. -/
theorem hook_two_party_exactly_one_write_witness :
    peerIdWrites (bridgemon_hook_callback
        (some { monitored_channel := some { uid := "A1", name := "PJSIP/a" },
                channel_id := "s1", active := true })
        { chan := { uid := "A1", name := "PJSIP/a" }, peer := none }).1 =
      [] ∧
    peerIdWrites (bridgemon_hook_callback
        (some { monitored_channel := some { uid := "A1", name := "PJSIP/a" },
                channel_id := "s1", active := true })
        { chan := { uid := "B2", name := "PJSIP/b" },
          peer := some { chan := some { uid := "A1", name := "PJSIP/a" } }
        }).1 = ["B2"] :=
  ⟨(hook_two_party_exactly_one_write
      { uid := "A1", name := "PJSIP/a" } { uid := "B2", name := "PJSIP/b" }
      { monitored_channel := some { uid := "A1", name := "PJSIP/a" },
        channel_id := "s1", active := true }
      (by decide) (by decide) rfl rfl).1,
   (hook_two_party_exactly_one_write
      { uid := "A1", name := "PJSIP/a" } { uid := "B2", name := "PJSIP/b" }
      { monitored_channel := some { uid := "A1", name := "PJSIP/a" },
        channel_id := "s1", active := true }
      (by decide) (by decide) rfl rfl).2.1⟩

/-- C3: Case A — the joining channel IS the monitored channel and the
record is present and active.  If the peer lookup
(`ast_bridge_channel_peer` followed by `ast_bridge_channel_get_chan`)
yields a peer channel `p`, the callback writes `p`'s unique id under the
peer-id key `BRIDGEPEERID` on the monitored channel; if it yields no peer,
nothing is written to the peer-id key. -/
theorem hook_monitored_join_resolution (d : bridgemon_data)
    (monitored : Channel) (bc : BridgeChannel)
    (hmon : d.monitored_channel = some monitored) (hact : d.active = true)
    (hchan : bc.chan = monitored) :
    (∀ p : Channel, bc.peer.bind PeerBridgeChannel.chan = some p →
        p.uid.length ≤ 63 →
        ("BRIDGEPEERID", p.uid) ∈
          writesOf (bridgemon_hook_callback (some d) bc).1) ∧
    (bc.peer.bind PeerBridgeChannel.chan = none →
        peerIdWrites (bridgemon_hook_callback (some d) bc).1 = []) := by
  obtain ⟨bchan, bpeer⟩ := bc
  simp only at hchan
  subst hchan
  constructor
  · rintro p hp hlen
    rcases bpeer with _ | ⟨pc⟩
    · simp at hp
    · rcases pc with _ | p2
      · simp at hp
      · simp at hp
        subst hp
        simp [bridgemon_hook_callback, writesOf, hmon, hact,
          ast_copy_string_of_le 64 p2.uid hlen]
  · intro hp
    rcases bpeer with _ | ⟨pc⟩
    · simp [bridgemon_hook_callback, peerIdWrites, hmon, hact]
    · rcases pc with _ | p2
      · simp [bridgemon_hook_callback, peerIdWrites, hmon, hact]
      · simp at hp

/-- Witness for C3: with a peer present, the peer-id write occurs; the
concrete peer's id appears among the variable writes. -/
theorem hook_monitored_join_resolution_witness :
    ("BRIDGEPEERID", "B2") ∈
      writesOf (bridgemon_hook_callback
        (some { monitored_channel := some { uid := "A1", name := "PJSIP/a" },
                channel_id := "s1", active := true })
        { chan := { uid := "A1", name := "PJSIP/a" },
          peer := some { chan := some { uid := "B2", name := "PJSIP/b" } }
        }).1 :=
  (hook_monitored_join_resolution
      { monitored_channel := some { uid := "A1", name := "PJSIP/a" },
        channel_id := "s1", active := true }
      { uid := "A1", name := "PJSIP/a" }
      { chan := { uid := "A1", name := "PJSIP/a" },
        peer := some { chan := some { uid := "B2", name := "PJSIP/b" } } }
      rfl rfl rfl).1 { uid := "B2", name := "PJSIP/b" } rfl (by decide)

/-- C4: Case B — the joining channel differs from the monitored channel and
the record is present and active.  If the peer looked up from the joining
channel's perspective is exactly the monitored channel, the callback writes
the joining channel's unique id under `BRIDGEPEERID` on the monitored
channel; otherwise it performs no variable write at all. -/
theorem hook_peer_join_resolution (d : bridgemon_data)
    (monitored : Channel) (bc : BridgeChannel)
    (hmon : d.monitored_channel = some monitored) (hact : d.active = true)
    (hchan : bc.chan ≠ monitored) :
    (bc.peer.bind PeerBridgeChannel.chan = some monitored →
        bc.chan.uid.length ≤ 63 →
        peerIdWrites (bridgemon_hook_callback (some d) bc).1 =
          [bc.chan.uid]) ∧
    (bc.peer.bind PeerBridgeChannel.chan ≠ some monitored →
        writesOf (bridgemon_hook_callback (some d) bc).1 = []) := by
  obtain ⟨bchan, bpeer⟩ := bc
  simp only at hchan ⊢
  constructor
  · intro hp hlen
    rcases bpeer with _ | ⟨pc⟩
    · simp at hp
    · simp at hp
      simp [bridgemon_hook_callback, peerIdWrites, hmon, hact, hchan, hp,
        ast_copy_string_of_le 64 bchan.uid hlen]
  · intro hp
    rcases bpeer with _ | ⟨pc⟩
    · simp [bridgemon_hook_callback, writesOf, hmon, hact, hchan]
    · simp only [Option.some_bind] at hp
      simp [bridgemon_hook_callback, writesOf, hmon, hact, hchan, hp]

/-- Witness for C4: a non-monitored channel joins while the monitored one
is already in the bridge — the joining channel's id is written. -/
theorem hook_peer_join_resolution_witness :
    peerIdWrites (bridgemon_hook_callback
        (some { monitored_channel := some { uid := "A1", name := "PJSIP/a" },
                channel_id := "s1", active := true })
        { chan := { uid := "B2", name := "PJSIP/b" },
          peer := some { chan := some { uid := "A1", name := "PJSIP/a" } }
        }).1 = ["B2"] :=
  (hook_peer_join_resolution
      { monitored_channel := some { uid := "A1", name := "PJSIP/a" },
        channel_id := "s1", active := true }
      { uid := "A1", name := "PJSIP/a" }
      { chan := { uid := "B2", name := "PJSIP/b" },
        peer := some { chan := some { uid := "A1", name := "PJSIP/a" } } }
      rfl rfl (by decide)).1 rfl (by decide)

/-- C10: every peer-id write — the Case A write of the looked-up peer's id
(lines 176-184) and the Case B write of the joining channel's id (lines
205-213) — passes the id through `ast_copy_string` into a fixed 64-byte
buffer, so the value stored under `BRIDGEPEERID` is that id truncated to at
most 63 characters: ids of 63 or fewer characters are written unchanged,
longer ones are silently cut to their first 63 characters. -/
theorem peer_id_write_truncation (d : bridgemon_data) (monitored : Channel)
    (bc : BridgeChannel)
    (hmon : d.monitored_channel = some monitored) (hact : d.active = true) :
    (∀ p : Channel, bc.chan = monitored →
        bc.peer.bind PeerBridgeChannel.chan = some p →
        peerIdWrites (bridgemon_hook_callback (some d) bc).1 =
          [ast_copy_string 64 p.uid]) ∧
    (bc.chan ≠ monitored →
        bc.peer.bind PeerBridgeChannel.chan = some monitored →
        peerIdWrites (bridgemon_hook_callback (some d) bc).1 =
          [ast_copy_string 64 bc.chan.uid]) ∧
    (∀ s : String,
        (ast_copy_string 64 s).length = min 63 s.length ∧
        (s.length ≤ 63 → ast_copy_string 64 s = s) ∧
        (63 < s.length → ast_copy_string 64 s = ⟨s.data.take 63⟩ ∧
          (ast_copy_string 64 s).length = 63)) := by
  obtain ⟨bchan, bpeer⟩ := bc
  refine ⟨?_, ?_, ?_⟩
  · rintro p hchan hp
    simp only at hchan
    subst hchan
    rcases bpeer with _ | ⟨pc⟩
    · simp at hp
    · rcases pc with _ | p2
      · simp at hp
      · simp at hp
        subst hp
        simp [bridgemon_hook_callback, peerIdWrites, hmon, hact]
  · intro hchan hp
    simp only at hchan ⊢
    rcases bpeer with _ | ⟨pc⟩
    · simp at hp
    · simp at hp
      simp [bridgemon_hook_callback, peerIdWrites, hmon, hact, hchan, hp]
  · intro s
    have hmin : (ast_copy_string 64 s).length = min 63 s.length := by
      show (s.data.take 63).length = min 63 s.data.length
      simp [List.length_take]
    refine ⟨hmin, fun hle => ast_copy_string_of_le 64 s hle,
      fun hgt => ⟨rfl, ?_⟩⟩
    rw [hmin]
    omega

/-- Witness for C10: a 70-character joining-channel id, written by the
Case B path, is truncated to its first 63 characters. -/
theorem peer_id_write_truncation_witness :
    peerIdWrites (bridgemon_hook_callback
        (some { monitored_channel := some { uid := "A1", name := "PJSIP/a" },
                channel_id := "s1", active := true })
        { chan := { uid := "0123456789012345678901234567890123456789012345678901234567890123456789", name := "PJSIP/long" },
          peer := some { chan := some { uid := "A1", name := "PJSIP/a" } } }).1 =
      [ast_copy_string 64
        "0123456789012345678901234567890123456789012345678901234567890123456789"] ∧
    (ast_copy_string 64
      "0123456789012345678901234567890123456789012345678901234567890123456789").length
      = 63 := by
  have h := peer_id_write_truncation
    { monitored_channel := some { uid := "A1", name := "PJSIP/a" },
      channel_id := "s1", active := true }
    { uid := "A1", name := "PJSIP/a" }
    { chan := { uid := "0123456789012345678901234567890123456789012345678901234567890123456789", name := "PJSIP/long" },
      peer := some { chan := some { uid := "A1", name := "PJSIP/a" } } }
    rfl rfl
  exact ⟨h.2.1 (by decide) rfl,
    ((h.2.2 "0123456789012345678901234567890123456789012345678901234567890123456789").2.2
      (by decide)).2⟩

/-- C2: once `stop_bridgemon` has returned success for a (reachable)
session, the session record the join hook references is gone or inactive,
and any subsequent invocation of `bridgemon_hook_callback` for that
session performs no Variable Store write. -/
theorem stop_then_no_session_write (s : SysState) (h : Reachable s)
    (hok : (stop_bridgemon s).2.1 = 0) (bc : BridgeChannel) :
    ((stop_bridgemon s).1.record = none ∨
      ∃ r : bridgemon_data, (stop_bridgemon s).1.record = some r ∧
        r.active = false) ∧
    writesOf (bridgemon_hook_callback (stop_bridgemon s).1.record bc).1 =
      [] := by
  cases hatt : s.attached with
  | false =>
    exfalso
    simp [stop_bridgemon, hatt] at hok
  | true =>
    have hdsr : s.dsRef = true := reachable_attached_dsRef h hatt
    have hrec : (stop_bridgemon s).1.record =
        s.record.map (fun r => { r with active := false }) := by
      simp [stop_bridgemon, hatt, hdsr]
    rcases hr : s.record with _ | r
    · rw [hrec, hr]
      exact ⟨Or.inl rfl, rfl⟩
    · have hrec2 : (stop_bridgemon s).1.record =
          some { r with active := false } := by
        rw [hrec, hr]
        rfl
      rw [hrec2]
      refine ⟨Or.inr ⟨{ r with active := false }, rfl, rfl⟩, ?_⟩
      rw [callback_not_active { r with active := false } bc rfl]
      rfl

/-- Witness for C2: start a session, stop it, then deliver a join
notification that would previously have produced a peer-id write — nothing
is written. -/
theorem stop_then_no_session_write_witness :
    writesOf (bridgemon_hook_callback
      (stop_bridgemon
        (start_bridgemon ⟨true, true, true, true, true, true⟩
          { uid := "A1", name := "PJSIP/a" } "s1").1).1.record
      { chan := { uid := "B2", name := "PJSIP/b" },
        peer := some { chan := some { uid := "A1", name := "PJSIP/a" } }
      }).1 = [] :=
  (stop_then_no_session_write
    (start_bridgemon ⟨true, true, true, true, true, true⟩
      { uid := "A1", name := "PJSIP/a" } "s1").1
    (Reachable.start ⟨true, true, true, true, true, true⟩
      { uid := "A1", name := "PJSIP/a" } "s1" initState Reachable.init rfl
      rfl)
    rfl
    { chan := { uid := "B2", name := "PJSIP/b" },
      peer := some { chan := some { uid := "A1", name := "PJSIP/a" } } }).2

/-- C7 counterexample: the claim that every read of the `active` flag is
performed under a lock is false — with a present, active record (a concrete
reachable configuration), the callback's entry check of `active` happens
while no lock at all (channel, datastore or record lock) is held. -/
theorem active_read_under_lock_refuted :
    ((activeAccessHolds held0
      (bridgemon_hook_callback
        (some { monitored_channel := some { uid := "A1", name := "PJSIP/a" },
                channel_id := "s1", active := true })
        { chan := { uid := "A1", name := "PJSIP/a" },
          peer := none }).1).all someLockHeld) = false := by
  decide

/-- C7 amended: a peer-id write is attempted only while the record is
present with `active = true`, and the `active` check is the callback's very
first action; however, the callback reads `active` while holding no lock at
all (its single flag access sees zero held locks), while `stop_bridgemon`'s
write of `active := false` is performed under the datastore's lock (not the
record's own lock, which the module never takes). -/
theorem active_flag_discipline :
    (∀ bc : BridgeChannel,
        writesOf (bridgemon_hook_callback none bc).1 = []) ∧
    (∀ (d : bridgemon_data) (bc : BridgeChannel), d.active = false →
        writesOf (bridgemon_hook_callback (some d) bc).1 = []) ∧
    (∀ (d : bridgemon_data) (bc : BridgeChannel),
        ((bridgemon_hook_callback (some d) bc).1).head? =
          some Ev.readActive) ∧
    (∀ (d : bridgemon_data) (bc : BridgeChannel),
        activeAccessHolds held0 (bridgemon_hook_callback (some d) bc).1 =
          [held0]) ∧
    (∀ s : SysState,
        (activeAccessHolds held0 (stop_bridgemon s).2.2).all dsLockHeld =
          true) := by
  refine ⟨fun bc => rfl, ?_, ?_, ?_, ?_⟩
  · intro d bc h
    rw [callback_not_active d bc h]
    rfl
  · intro d bc
    simp only [bridgemon_hook_callback]
    repeat' split
    all_goals rfl
  · intro d bc
    simp only [bridgemon_hook_callback]
    repeat' split
    all_goals simp [activeAccessHolds, heldAfter, held0]
  · intro s
    obtain ⟨att, dsr, rec, dok⟩ := s
    cases att <;> cases dsr <;> rfl

/-- Witness for C7 amended: an inactive record produces no writes, and a
concrete attached session's stop trace performs its `active` write under
the datastore lock. -/
theorem active_flag_discipline_witness :
    writesOf (bridgemon_hook_callback
      (some { monitored_channel := some { uid := "A1", name := "PJSIP/a" },
              channel_id := "s1", active := false })
      { chan := { uid := "A1", name := "PJSIP/a" }, peer := none }).1 =
      [] ∧
    (activeAccessHolds held0 (stop_bridgemon
      { attached := true, dsRef := true,
        record := some { monitored_channel := some { uid := "A1", name := "PJSIP/a" }, channel_id := "s1", active := true },
        destruction_ok := false }).2.2).all dsLockHeld = true :=
  ⟨active_flag_discipline.2.1
      { monitored_channel := some { uid := "A1", name := "PJSIP/a" },
        channel_id := "s1", active := false }
      { chan := { uid := "A1", name := "PJSIP/a" }, peer := none } rfl,
   active_flag_discipline.2.2.2.2
      { attached := true, dsRef := true,
        record := some { monitored_channel := some { uid := "A1", name := "PJSIP/a" }, channel_id := "s1", active := true },
        destruction_ok := false }⟩

end Bridgemon
